import Mathlib

/-!
Verification of `src/src/Engine/babylon.engineInstrumentation.ts`
(class `EngineInstrumentation`), a controller that toggles GPU frame-time
and shader-compilation-time instrumentation on a rendering engine.

The engine (its observables, timing queries) and the `PerfCounter`
accumulator are external collaborators whose code is not under `src/`;
they are modelled from the spec where noted.  The controller's own state
and operations are translated from the TypeScript source.
-/

/-- Modelled from the spec: the engine's event-subscription mechanism
(`Observable` is not under `src/`).  Spec section 6: `register(callback) -> handle`,
`unregister(handle) -> void`, idempotent / safe on already-removed handles.
Handles are opaque; we use fresh natural-number ids. -/
structure Observable where
  observers : List Nat
  nextId : Nat
  deriving Repr, DecidableEq

def Observable.add (o : Observable) : Nat × Observable :=
  (o.nextId, ⟨o.observers ++ [o.nextId], o.nextId + 1⟩)

/-- `remove` takes the nullable stored handle; removing `null` or an
already-removed handle is a safe no-op (spec section 6). -/
def Observable.remove (o : Observable) (h : Option Nat) : Observable :=
  match h with
  | none => o
  | some i => { o with observers := o.observers.erase i }

def Observable.empty : Observable := ⟨[], 0⟩

/-- Modelled from the spec: the engine collaborator (not under `src/`).
It exposes the four event-subscription points used by the controller and
`issueTimingQuery() -> token` (`startTimeQuery` in the source); tokens are
opaque fresh ids.  `resolveTimingQuery` (`endTimeQuery`) is modelled as an
oracle parameter of the end-frame event, since its result depends on GPU
readiness external to this unit. -/
structure Engine where
  onBeginFrameObservable : Observable
  onEndFrameObservable : Observable
  onBeforeShaderCompilationObservable : Observable
  onAfterShaderCompilationObservable : Observable
  nextTimeToken : Nat
  deriving Repr, DecidableEq

def Engine.startTimeQuery (e : Engine) : Nat × Engine :=
  (e.nextTimeToken, { e with nextTimeToken := e.nextTimeToken + 1 })

def Engine.empty : Engine :=
  ⟨Observable.empty, Observable.empty, Observable.empty, Observable.empty, 0⟩

/-- Modelled from the spec: the operations of the external `PerfCounter`
accumulator that the controller invokes (spec section 6:
`advanceSamplingFrame`, `recordSample(value, isGPUTiming)`,
`beginMonitoring` / `endMonitoring`).  The accumulator's internals are out
of scope, so a counter is represented by the trace of operations the
controller has applied to it; `beginMonitoring` / `endMonitoring` record
the wall-clock instant at which they occurred. -/
inductive PerfOp where
  | fetchNewFrame : PerfOp
  | addCount (value : Int) (fetchResult : Bool) : PerfOp
  | beginMonitoring (now : Int) : PerfOp
  | endMonitoring (now : Int) : PerfOp
  deriving Repr, DecidableEq

/-- Modelled from the spec: read surface of the accumulator (current /
average / total / count), obtained by replaying the operation trace with
the spec's semantics: `advanceSamplingFrame` opens a new sample window,
`recordSample` commits a value as the current sample, `endMonitoring`
commits the elapsed wall-clock duration as the current sample. -/
structure PerfStats where
  current : Int
  totalTime : Int
  count : Nat
  startInstant : Int
  deriving Repr, DecidableEq

def PerfOp.apply (st : PerfStats) : PerfOp → PerfStats
  | .fetchNewFrame => { st with count := st.count + 1 }
  | .addCount v _ => { st with current := v, totalTime := st.totalTime + v }
  | .beginMonitoring now => { st with startInstant := now }
  | .endMonitoring now =>
      { st with current := now - st.startInstant,
                totalTime := st.totalTime + (now - st.startInstant) }

def PerfCounter.stats (t : List PerfOp) : PerfStats :=
  t.foldl PerfOp.apply ⟨0, 0, 0, 0⟩

def PerfCounter.currentVal (t : List PerfOp) : Int := (PerfCounter.stats t).current

def PerfCounter.averageVal (t : List PerfOp) : Int :=
  (PerfCounter.stats t).totalTime / ((PerfCounter.stats t).count : Int)

def PerfCounter.totalVal (t : List PerfOp) : Int := (PerfCounter.stats t).totalTime

def PerfCounter.countVal (t : List PerfOp) : Nat := (PerfCounter.stats t).count

/-- The controller state, translated field-by-field from the class
`EngineInstrumentation`.  The nullable engine reference (`public engine`,
set to `null` by `dispose`) is modelled by the flag `engineBound`; the
engine object itself is external and threaded alongside the controller. -/
structure EngineInstrumentation where
  _captureGPUFrameTime : Bool
  _gpuFrameTimeToken : Option Nat
  _gpuFrameTime : List PerfOp
  _captureShaderCompilationTime : Bool
  _shaderCompilationTime : List PerfOp
  _onBeginFrameObserver : Option Nat
  _onEndFrameObserver : Option Nat
  _onBeforeShaderCompilationObserver : Option Nat
  _onAfterShaderCompilationObserver : Option Nat
  engineBound : Bool
  deriving Repr, DecidableEq

/-- The constructor `constructor(public engine: Engine)` with the field
initialisers of the class. -/
def EngineInstrumentation.create : EngineInstrumentation :=
  { _captureGPUFrameTime := false
    _gpuFrameTimeToken := none
    _gpuFrameTime := []
    _captureShaderCompilationTime := false
    _shaderCompilationTime := []
    _onBeginFrameObserver := none
    _onEndFrameObserver := none
    _onBeforeShaderCompilationObserver := none
    _onAfterShaderCompilationObserver := none
    engineBound := true }

/-- `set captureGPUFrameTime(value)` from the source.  The early return
fires when `value === this._captureGPUFrameTime`; otherwise both branches
dereference `this.engine` (`none` models the null dereference after
disposal).  Note: the source never assigns `this._captureGPUFrameTime`. -/
def setCaptureGPUFrameTime (s : EngineInstrumentation) (e : Engine)
    (value : Bool) : Option (EngineInstrumentation × Engine) :=
  if value = s._captureGPUFrameTime then
    some (s, e)
  else if !s.engineBound then
    none
  else if value then
    let p1 := e.onBeginFrameObservable.add
    let e1 := { e with onBeginFrameObservable := p1.2 }
    let p2 := e1.onEndFrameObservable.add
    let e2 := { e1 with onEndFrameObservable := p2.2 }
    some ({ s with _onBeginFrameObserver := some p1.1,
                   _onEndFrameObserver := some p2.1 }, e2)
  else
    let e1 := { e with onBeginFrameObservable :=
                  e.onBeginFrameObservable.remove s._onBeginFrameObserver }
    let e2 := { e1 with onEndFrameObservable :=
                  e1.onEndFrameObservable.remove s._onEndFrameObserver }
    some ({ s with _onBeginFrameObserver := none,
                   _onEndFrameObserver := none }, e2)

/-- The begin-frame closure registered by `set captureGPUFrameTime(true)`:
`if (!this._gpuFrameTimeToken) { this._gpuFrameTimeToken = this.engine.startTimeQuery(); }`. -/
def beginFrameCallback (s : EngineInstrumentation) (e : Engine) :
    Option (EngineInstrumentation × Engine) :=
  match s._gpuFrameTimeToken with
  | some _ => some (s, e)
  | none =>
    if !s.engineBound then
      none
    else
      let p := e.startTimeQuery
      some ({ s with _gpuFrameTimeToken := some p.1 }, p.2)

/-- The end-frame closure registered by `set captureGPUFrameTime(true)`.
`resolve` is the oracle for `this.engine.endTimeQuery(token)` (external
GPU readiness): a result `> -1` is the elapsed time, otherwise the query
is not ready. -/
def endFrameCallback (resolve : Nat → Int) (s : EngineInstrumentation)
    (e : Engine) : Option (EngineInstrumentation × Engine) :=
  match s._gpuFrameTimeToken with
  | none => some (s, e)
  | some tok =>
    if !s.engineBound then
      none
    else
      let time := resolve tok
      if time > -1 then
        some ({ s with _gpuFrameTimeToken := none,
                       _gpuFrameTime := s._gpuFrameTime ++
                         [PerfOp.fetchNewFrame, PerfOp.addCount time true] }, e)
      else
        some (s, e)

/-- `set captureShaderCompilationTime(value)` from the source; same shape
as the GPU toggle setter and likewise never assigns
`this._captureShaderCompilationTime`. -/
def setCaptureShaderCompilationTime (s : EngineInstrumentation) (e : Engine)
    (value : Bool) : Option (EngineInstrumentation × Engine) :=
  if value = s._captureShaderCompilationTime then
    some (s, e)
  else if !s.engineBound then
    none
  else if value then
    let p1 := e.onBeforeShaderCompilationObservable.add
    let e1 := { e with onBeforeShaderCompilationObservable := p1.2 }
    let p2 := e1.onAfterShaderCompilationObservable.add
    let e2 := { e1 with onAfterShaderCompilationObservable := p2.2 }
    some ({ s with _onBeforeShaderCompilationObserver := some p1.1,
                   _onAfterShaderCompilationObserver := some p2.1 }, e2)
  else
    let e1 := { e with onBeforeShaderCompilationObservable :=
                  e.onBeforeShaderCompilationObservable.remove s._onBeforeShaderCompilationObserver }
    let e2 := { e1 with onAfterShaderCompilationObservable :=
                  e1.onAfterShaderCompilationObservable.remove s._onAfterShaderCompilationObserver }
    some ({ s with _onBeforeShaderCompilationObserver := none,
                   _onAfterShaderCompilationObserver := none }, e2)

/-- The before-shader-compilation closure:
`this._shaderCompilationTime.fetchNewFrame(); this._shaderCompilationTime.beginMonitoring();`.
`now` is the wall-clock instant at which the monitoring starts. -/
def beforeShaderCompilationCallback (now : Int) (s : EngineInstrumentation) :
    EngineInstrumentation :=
  { s with _shaderCompilationTime := s._shaderCompilationTime ++
      [PerfOp.fetchNewFrame, PerfOp.beginMonitoring now] }

/-- The after-shader-compilation closure:
`this._shaderCompilationTime.endMonitoring();`. -/
def afterShaderCompilationCallback (now : Int) (s : EngineInstrumentation) :
    EngineInstrumentation :=
  { s with _shaderCompilationTime := s._shaderCompilationTime ++
      [PerfOp.endMonitoring now] }

/-- First guarded block of `dispose`: remove the begin-frame observer and
clear its handle, only when the handle is non-null. -/
def disposeStepBeginFrame (s : EngineInstrumentation) (e : Engine) :
    Option (EngineInstrumentation × Engine) :=
  match s._onBeginFrameObserver with
  | none => some (s, e)
  | some _ =>
    if !s.engineBound then
      none
    else
      some ({ s with _onBeginFrameObserver := none },
            { e with onBeginFrameObservable :=
                e.onBeginFrameObservable.remove s._onBeginFrameObserver })

/-- Second guarded block of `dispose` (end-frame observer). -/
def disposeStepEndFrame (s : EngineInstrumentation) (e : Engine) :
    Option (EngineInstrumentation × Engine) :=
  match s._onEndFrameObserver with
  | none => some (s, e)
  | some _ =>
    if !s.engineBound then
      none
    else
      some ({ s with _onEndFrameObserver := none },
            { e with onEndFrameObservable :=
                e.onEndFrameObservable.remove s._onEndFrameObserver })

/-- Third guarded block of `dispose` (before-shader-compilation observer). -/
def disposeStepBeforeShader (s : EngineInstrumentation) (e : Engine) :
    Option (EngineInstrumentation × Engine) :=
  match s._onBeforeShaderCompilationObserver with
  | none => some (s, e)
  | some _ =>
    if !s.engineBound then
      none
    else
      some ({ s with _onBeforeShaderCompilationObserver := none },
            { e with onBeforeShaderCompilationObservable :=
                e.onBeforeShaderCompilationObservable.remove s._onBeforeShaderCompilationObserver })

/-- Fourth guarded block of `dispose` (after-shader-compilation observer). -/
def disposeStepAfterShader (s : EngineInstrumentation) (e : Engine) :
    Option (EngineInstrumentation × Engine) :=
  match s._onAfterShaderCompilationObserver with
  | none => some (s, e)
  | some _ =>
    if !s.engineBound then
      none
    else
      some ({ s with _onAfterShaderCompilationObserver := none },
            { e with onAfterShaderCompilationObservable :=
                e.onAfterShaderCompilationObservable.remove s._onAfterShaderCompilationObserver })

/-- `dispose()` from the source: the four guarded removals in order,
then `(<any>this.engine) = null`. -/
def dispose (s : EngineInstrumentation) (e : Engine) :
    Option (EngineInstrumentation × Engine) :=
  (disposeStepBeginFrame s e).bind fun p1 =>
  (disposeStepEndFrame p1.1 p1.2).bind fun p2 =>
  (disposeStepBeforeShader p2.1 p2.2).bind fun p3 =>
  (disposeStepAfterShader p3.1 p3.2).map fun p4 =>
  ({ p4.1 with engineBound := false }, p4.2)

/-- `get currentGPUFrameTime` — returns `this._gpuFrameTime.current`.
All getters are embedded in state-passing style (value, resulting state)
so that side-effect-freedom is a provable statement. -/
def getCurrentGPUFrameTime (s : EngineInstrumentation) :
    Int × EngineInstrumentation :=
  (PerfCounter.currentVal s._gpuFrameTime, s)

/-- `get averageGPUFrameTime` — returns `this._gpuFrameTime.average`. -/
def getAverageGPUFrameTime (s : EngineInstrumentation) :
    Int × EngineInstrumentation :=
  (PerfCounter.averageVal s._gpuFrameTime, s)

/-- `get captureGPUFrameTime` — returns `this._captureGPUFrameTime`. -/
def getCaptureGPUFrameTime (s : EngineInstrumentation) :
    Bool × EngineInstrumentation :=
  (s._captureGPUFrameTime, s)

/-- `get currentShaderCompilationTime` — returns
`this._shaderCompilationTime.current`. -/
def getCurrentShaderCompilationTime (s : EngineInstrumentation) :
    Int × EngineInstrumentation :=
  (PerfCounter.currentVal s._shaderCompilationTime, s)

/-- `get averageShaderCompilationTime` — returns
`this._shaderCompilationTime.average`. -/
def getAverageShaderCompilationTime (s : EngineInstrumentation) :
    Int × EngineInstrumentation :=
  (PerfCounter.averageVal s._shaderCompilationTime, s)

/-- `get totalShaderCompilationTime` — returns
`this._shaderCompilationTime.total`. -/
def getTotalShaderCompilationTime (s : EngineInstrumentation) :
    Int × EngineInstrumentation :=
  (PerfCounter.totalVal s._shaderCompilationTime, s)

/-- `get compiledShadersCount` — returns
`this._shaderCompilationTime.count`. -/
def getCompiledShadersCount (s : EngineInstrumentation) :
    Nat × EngineInstrumentation :=
  (PerfCounter.countVal s._shaderCompilationTime, s)

/-- `get captureShaderCompilationTime` — returns
`this._captureShaderCompilationTime`. -/
def getCaptureShaderCompilationTime (s : EngineInstrumentation) :
    Bool × EngineInstrumentation :=
  (s._captureShaderCompilationTime, s)

/-- One call to one of the two toggle setters, with a boolean argument. -/
inductive SetterCall where
  | gpu (value : Bool) : SetterCall
  | shader (value : Bool) : SetterCall
  deriving Repr, DecidableEq

def applySetter (c : SetterCall) (s : EngineInstrumentation) (e : Engine) :
    Option (EngineInstrumentation × Engine) :=
  match c with
  | .gpu v => setCaptureGPUFrameTime s e v
  | .shader v => setCaptureShaderCompilationTime s e v

def runSetters : List SetterCall → EngineInstrumentation → Engine →
    Option (EngineInstrumentation × Engine)
  | [], s, e => some (s, e)
  | c :: rest, s, e =>
    match applySetter c s e with
    | none => none
    | some p => runSetters rest p.1 p.2

/-! ## Theorems -/

/-- C1.  The claim says a capture toggle's handles are non-null iff the
toggle reads `true`.  The code violates this: after a single
`captureGPUFrameTime = true` on a fresh bound controller, both frame
observer handles are non-null while the getter still returns `false`
(the setter never assigns `_captureGPUFrameTime`). -/
theorem toggle_handle_desync_after_enable :
    (setCaptureGPUFrameTime EngineInstrumentation.create Engine.empty true).map
      (fun p => ((getCaptureGPUFrameTime p.1).1,
                 p.1._onBeginFrameObserver.isSome,
                 p.1._onEndFrameObserver.isSome))
      = some (false, true, true) := by
  rfl

/-- C2.  The claim says that after enabling, setting the toggle to `false`
unregisters both callbacks and clears both handles.  In the code the
`false` call hits the equality guard (the backing field is still `false`)
and is a complete no-op: the state after `true` then `false` is exactly
the state after `true`, with both handles still non-null and both
observers still registered with the engine. -/
theorem disable_after_enable_is_noop :
    ((setCaptureGPUFrameTime EngineInstrumentation.create Engine.empty true).bind
      (fun p => setCaptureGPUFrameTime p.1 p.2 false))
      = (setCaptureGPUFrameTime EngineInstrumentation.create Engine.empty true) ∧
    ((setCaptureGPUFrameTime EngineInstrumentation.create Engine.empty true).bind
      (fun p => setCaptureGPUFrameTime p.1 p.2 false)).map
      (fun p => (p.1._onBeginFrameObserver.isSome,
                 p.1._onEndFrameObserver.isSome,
                 p.2.onBeginFrameObservable.observers.length,
                 p.2.onEndFrameObservable.observers.length))
      = some (true, true, 1, 1) := by
  exact ⟨rfl, rfl⟩

/-- C3.  The claim says setting a toggle to `true` twice leaves exactly
one set of subscriptions registered.  In the code the second `true` call
also passes the equality guard (the backing field was never updated) and
registers a second pair of observers: the engine ends up with two
begin-frame and two end-frame observers. -/
theorem enable_twice_registers_duplicates :
    ((setCaptureGPUFrameTime EngineInstrumentation.create Engine.empty true).bind
      (fun p => setCaptureGPUFrameTime p.1 p.2 true)).map
      (fun p => (p.2.onBeginFrameObservable.observers.length,
                 p.2.onEndFrameObservable.observers.length))
      = some (2, 2) := by
  rfl

/-- C4.  The end-frame callback records a new sample (appends
`fetchNewFrame` then `addCount` to the GPU accumulator's trace) exactly
when a token is outstanding and its resolution is non-negative; with the
not-ready sentinel (a negative result), or with no outstanding token, the
controller state and the engine are left unchanged. -/
theorem endFrame_records_iff_ready (resolve : Nat → Int)
    (s s' : EngineInstrumentation) (e e' : Engine)
    (h : endFrameCallback resolve s e = some (s', e')) :
    (∀ tok, s._gpuFrameTimeToken = some tok → 0 ≤ resolve tok →
        s'._gpuFrameTime = s._gpuFrameTime ++
          [PerfOp.fetchNewFrame, PerfOp.addCount (resolve tok) true] ∧
        e' = e) ∧
    (∀ tok, s._gpuFrameTimeToken = some tok → resolve tok < 0 →
        s' = s ∧ e' = e) ∧
    (s._gpuFrameTimeToken = none → s' = s ∧ e' = e) := by
  cases htok : s._gpuFrameTimeToken with
  | none =>
    rw [endFrameCallback, htok] at h
    simp only [Option.some.injEq, Prod.mk.injEq] at h
    exact ⟨fun tok htok' => absurd htok' (by simp),
           fun tok htok' => absurd htok' (by simp),
           fun _ => ⟨h.1.symm, h.2.symm⟩⟩
  | some tok =>
    rw [endFrameCallback, htok] at h
    cases heb : s.engineBound with
    | false =>
      rw [heb] at h
      simp at h
    | true =>
      rw [heb] at h
      simp only [Bool.not_true, Bool.false_eq_true, if_false] at h
      by_cases hres : resolve tok > -1
      · rw [if_pos hres] at h
        simp only [Option.some.injEq, Prod.mk.injEq] at h
        refine ⟨fun tok' htok' _ => ?_, fun tok' htok' hneg => ?_,
                fun hn => absurd hn (by simp)⟩
        · cases htok'
          exact ⟨by rw [← h.1], h.2.symm⟩
        · cases htok'
          omega
      · rw [if_neg hres] at h
        simp only [Option.some.injEq, Prod.mk.injEq] at h
        refine ⟨fun tok' htok' hpos => ?_, fun tok' htok' _ => ?_,
                fun hn => absurd hn (by simp)⟩
        · cases htok'
          omega
        · cases htok'
          exact ⟨h.1.symm, h.2.symm⟩

/-- C4 witness: a state with outstanding token `0`, resolution returning
`5000000`: the callback records the sample. -/
theorem endFrame_records_iff_ready_witness :
    (endFrameCallback (fun _ => 5000000)
        ⟨false, some 0, [], false, [], some 0, some 0, none, none, true⟩
        Engine.empty = some
        (⟨false, none, [PerfOp.fetchNewFrame, PerfOp.addCount 5000000 true],
          false, [], some 0, some 0, none, none, true⟩, Engine.empty)) ∧
    ([PerfOp.fetchNewFrame, PerfOp.addCount 5000000 true] =
        ([] : List PerfOp) ++
          [PerfOp.fetchNewFrame, PerfOp.addCount ((fun (_ : Nat) => (5000000 : Int)) 0) true] ∧
      Engine.empty = Engine.empty) :=
  ⟨rfl, (endFrame_records_iff_ready (fun _ => 5000000)
      ⟨false, some 0, [], false, [], some 0, some 0, none, none, true⟩
      ⟨false, none, [PerfOp.fetchNewFrame, PerfOp.addCount 5000000 true],
        false, [], some 0, some 0, none, none, true⟩
      Engine.empty Engine.empty rfl).1 0 rfl (by decide)⟩

/-- C5.  The begin-frame callback issues a new timing query and stores its
token only when the token slot is null: with a token outstanding, the
state and the engine are returned unchanged (no second query); with a null
slot on a bound controller, exactly one query is issued and its token
stored, so at most one token is ever outstanding. -/
theorem beginFrame_single_outstanding_token
    (s s' : EngineInstrumentation) (e e' : Engine)
    (h : beginFrameCallback s e = some (s', e')) :
    (∀ tok, s._gpuFrameTimeToken = some tok → s' = s ∧ e' = e) ∧
    (s._gpuFrameTimeToken = none →
        s' = { s with _gpuFrameTimeToken := some e.startTimeQuery.1 } ∧
        e' = e.startTimeQuery.2) := by
  cases htok : s._gpuFrameTimeToken with
  | none =>
    rw [beginFrameCallback, htok] at h
    cases heb : s.engineBound with
    | false =>
      rw [heb] at h
      simp at h
    | true =>
      rw [heb] at h
      simp only [Bool.not_true, Bool.false_eq_true, if_false,
                 Option.some.injEq, Prod.mk.injEq] at h
      exact ⟨fun tok htok' => absurd htok' (by simp),
             fun _ => ⟨h.1.symm, h.2.symm⟩⟩
  | some tok =>
    rw [beginFrameCallback, htok] at h
    simp only [Option.some.injEq, Prod.mk.injEq] at h
    exact ⟨fun tok' _ => ⟨h.1.symm, h.2.symm⟩,
           fun hn => absurd hn (by simp)⟩

/-- C5 witness: a bound controller whose token slot already holds token
`7` — a begin-frame event changes nothing and issues no new query. -/
theorem beginFrame_single_outstanding_token_witness :
    (⟨false, some 7, [], false, [], some 0, some 0, none, none, true⟩ :
        EngineInstrumentation) =
      ⟨false, some 7, [], false, [], some 0, some 0, none, none, true⟩ ∧
    Engine.empty = Engine.empty :=
  (beginFrame_single_outstanding_token
      ⟨false, some 7, [], false, [], some 0, some 0, none, none, true⟩
      ⟨false, some 7, [], false, [], some 0, some 0, none, none, true⟩
      Engine.empty Engine.empty rfl).1 7 rfl

/-- C6.  When the end-frame callback finds an outstanding token on a bound
controller and the resolution is ready (non-negative), it clears the token
and extends the GPU accumulator's trace with `fetchNewFrame` followed by
`addCount elapsed true`, in that order, leaving everything else
unchanged. -/
theorem endFrame_ready_clears_token_and_records (resolve : Nat → Int)
    (s : EngineInstrumentation) (e : Engine) (tok : Nat)
    (h1 : s._gpuFrameTimeToken = some tok) (h2 : s.engineBound = true)
    (h3 : 0 ≤ resolve tok) :
    endFrameCallback resolve s e = some
      ({ s with _gpuFrameTimeToken := none,
                _gpuFrameTime := s._gpuFrameTime ++
                  [PerfOp.fetchNewFrame, PerfOp.addCount (resolve tok) true] },
       e) := by
  rw [endFrameCallback, h1, h2]
  simp only [Bool.not_true, Bool.false_eq_true, if_false]
  rw [if_pos (by omega : resolve tok > -1)]

/-- C6 witness: outstanding token `0`, resolution `12`: the callback
clears the token and appends the two accumulator operations. -/
theorem endFrame_ready_clears_token_and_records_witness :
    ((⟨false, some 0, [], false, [], some 0, some 0, none, none, true⟩ :
        EngineInstrumentation)._gpuFrameTimeToken = some 0 ∧
      (⟨false, some 0, [], false, [], some 0, some 0, none, none, true⟩ :
        EngineInstrumentation).engineBound = true ∧
      (0 : Int) ≤ 12) ∧
    endFrameCallback (fun _ => 12)
      ⟨false, some 0, [], false, [], some 0, some 0, none, none, true⟩
      Engine.empty = some
      (⟨false, none, [PerfOp.fetchNewFrame, PerfOp.addCount 12 true],
        false, [], some 0, some 0, none, none, true⟩, Engine.empty) :=
  ⟨⟨rfl, rfl, by decide⟩,
    endFrame_ready_clears_token_and_records (fun _ => 12)
      ⟨false, some 0, [], false, [], some 0, some 0, none, none, true⟩
      Engine.empty 0 rfl rfl (by decide)⟩

/-- C7.  On a controller still bound to its engine, `dispose` succeeds,
clears all four handle slots, removes each still-registered subscription
from its observable (each removal guarded by the null check: `remove` with
a null handle is the identity), and clears the engine binding. -/
theorem dispose_unregisters_everything (s : EngineInstrumentation)
    (e : Engine) (h : s.engineBound = true) :
    dispose s e = some
      ({ s with _onBeginFrameObserver := none,
                _onEndFrameObserver := none,
                _onBeforeShaderCompilationObserver := none,
                _onAfterShaderCompilationObserver := none,
                engineBound := false },
       { e with onBeginFrameObservable :=
                  e.onBeginFrameObservable.remove s._onBeginFrameObserver,
                onEndFrameObservable :=
                  e.onEndFrameObservable.remove s._onEndFrameObserver,
                onBeforeShaderCompilationObservable :=
                  e.onBeforeShaderCompilationObservable.remove
                    s._onBeforeShaderCompilationObserver,
                onAfterShaderCompilationObservable :=
                  e.onAfterShaderCompilationObservable.remove
                    s._onAfterShaderCompilationObserver }) := by
  obtain ⟨cg, tok, gpu, cs, sh, o1, o2, o3, o4, eb⟩ := s
  obtain ⟨b1, b2, b3, b4, nt⟩ := e
  simp only at h
  subst h
  cases o1 <;> cases o2 <;> cases o3 <;> cases o4 <;>
    simp [dispose, disposeStepBeginFrame, disposeStepEndFrame,
          disposeStepBeforeShader, disposeStepAfterShader, Observable.remove]

/-- C7 witness: a controller with the two frame handles registered and
the two shader handles already null; `dispose` removes the registered
ones, leaves the others alone, and clears everything. -/
theorem dispose_unregisters_everything_witness :
    dispose ⟨false, none, [], false, [], some 3, some 4, none, none, true⟩
        ⟨⟨[3], 5⟩, ⟨[4], 5⟩, ⟨[], 0⟩, ⟨[], 0⟩, 0⟩ = some
      ({ (⟨false, none, [], false, [], some 3, some 4, none, none, true⟩ :
            EngineInstrumentation) with
          _onBeginFrameObserver := none,
          _onEndFrameObserver := none,
          _onBeforeShaderCompilationObserver := none,
          _onAfterShaderCompilationObserver := none,
          engineBound := false },
       { (⟨⟨[3], 5⟩, ⟨[4], 5⟩, ⟨[], 0⟩, ⟨[], 0⟩, 0⟩ : Engine) with
          onBeginFrameObservable := Observable.remove ⟨[3], 5⟩ (some 3),
          onEndFrameObservable := Observable.remove ⟨[4], 5⟩ (some 4),
          onBeforeShaderCompilationObservable := Observable.remove ⟨[], 0⟩ none,
          onAfterShaderCompilationObservable := Observable.remove ⟨[], 0⟩ none }) :=
  dispose_unregisters_everything
    ⟨false, none, [], false, [], some 3, some 4, none, none, true⟩
    ⟨⟨[3], 5⟩, ⟨[4], 5⟩, ⟨[], 0⟩, ⟨[], 0⟩, 0⟩ rfl

/-- C8.  Every public read accessor is side-effect-free: each getter
returns the controller state unchanged (and, reading no engine state,
cannot touch the engine either). -/
theorem getters_leave_state_unchanged (s : EngineInstrumentation) :
    (getCurrentGPUFrameTime s).2 = s ∧
    (getAverageGPUFrameTime s).2 = s ∧
    (getCurrentShaderCompilationTime s).2 = s ∧
    (getAverageShaderCompilationTime s).2 = s ∧
    (getTotalShaderCompilationTime s).2 = s ∧
    (getCompiledShadersCount s).2 = s ∧
    (getCaptureGPUFrameTime s).2 = s ∧
    (getCaptureShaderCompilationTime s).2 = s :=
  ⟨rfl, rfl, rfl, rfl, rfl, rfl, rfl, rfl⟩

/-- C9.  The before-compilation callback applies exactly
`fetchNewFrame` then `beginMonitoring` to the compilation-time
accumulator, the after-compilation callback applies exactly
`endMonitoring`, and a before/after pair applies exactly those three
operations in order; no other field of the controller changes. -/
theorem shader_callbacks_exact_ops (now1 now2 : Int)
    (s : EngineInstrumentation) :
    beforeShaderCompilationCallback now1 s =
      { s with _shaderCompilationTime := s._shaderCompilationTime ++
          [PerfOp.fetchNewFrame, PerfOp.beginMonitoring now1] } ∧
    afterShaderCompilationCallback now2 s =
      { s with _shaderCompilationTime := s._shaderCompilationTime ++
          [PerfOp.endMonitoring now2] } ∧
    afterShaderCompilationCallback now2 (beforeShaderCompilationCallback now1 s) =
      { s with _shaderCompilationTime := s._shaderCompilationTime ++
          [PerfOp.fetchNewFrame, PerfOp.beginMonitoring now1,
           PerfOp.endMonitoring now2] } := by
  refine ⟨rfl, rfl, ?_⟩
  simp [beforeShaderCompilationCallback, afterShaderCompilationCallback]

/-- Helper: neither toggle setter ever assigns the backing boolean
fields `_captureGPUFrameTime` / `_captureShaderCompilationTime`. -/
theorem applySetter_preserves_capture_fields (c : SetterCall)
    (s : EngineInstrumentation) (e : Engine)
    (p : EngineInstrumentation × Engine) (h : applySetter c s e = some p) :
    p.1._captureGPUFrameTime = s._captureGPUFrameTime ∧
    p.1._captureShaderCompilationTime = s._captureShaderCompilationTime := by
  cases c with
  | gpu v =>
    rw [applySetter, setCaptureGPUFrameTime] at h
    split at h
    · simp only [Option.some.injEq] at h
      rw [← h]
      exact ⟨rfl, rfl⟩
    · split at h
      · simp at h
      · split at h <;>
        · simp only [Option.some.injEq] at h
          rw [← h]
          exact ⟨rfl, rfl⟩
  | shader v =>
    rw [applySetter, setCaptureShaderCompilationTime] at h
    split at h
    · simp only [Option.some.injEq] at h
      rw [← h]
      exact ⟨rfl, rfl⟩
    · split at h
      · simp at h
      · split at h <;>
        · simp only [Option.some.injEq] at h
          rw [← h]
          exact ⟨rfl, rfl⟩

/-- Helper: any successful sequence of setter calls leaves both backing
boolean fields exactly as they were. -/
theorem runSetters_preserves_capture_fields (calls : List SetterCall)
    (s : EngineInstrumentation) (e : Engine)
    (p : EngineInstrumentation × Engine) (h : runSetters calls s e = some p) :
    p.1._captureGPUFrameTime = s._captureGPUFrameTime ∧
    p.1._captureShaderCompilationTime = s._captureShaderCompilationTime := by
  induction calls generalizing s e with
  | nil =>
    rw [runSetters] at h
    simp only [Option.some.injEq] at h
    rw [← h]
    exact ⟨rfl, rfl⟩
  | cons c rest ih =>
    rw [runSetters] at h
    cases happ : applySetter c s e with
    | none => rw [happ] at h; simp at h
    | some q =>
      rw [happ] at h
      have h1 := applySetter_preserves_capture_fields c s e q happ
      have h2 := ih q.1 q.2 h
      exact ⟨h2.1.trans h1.1, h2.2.trans h1.2⟩

/-- C10.  After any successful sequence of toggle-setter calls on a fresh
controller, both capture getters still return `false`: the setters never
assign their backing boolean fields after the early-return equality
guard. -/
theorem capture_getters_always_false (calls : List SetterCall) (e : Engine)
    (p : EngineInstrumentation × Engine)
    (h : runSetters calls EngineInstrumentation.create e = some p) :
    (getCaptureGPUFrameTime p.1).1 = false ∧
    (getCaptureShaderCompilationTime p.1).1 = false :=
  runSetters_preserves_capture_fields calls EngineInstrumentation.create e p h

/-- C10 witness: enable GPU capture, enable shader capture, then ask the
GPU toggle to turn off — all three calls succeed, yet both getters still
read `false`. -/
theorem capture_getters_always_false_witness :
    (getCaptureGPUFrameTime
        (⟨false, none, [], false, [], some 0, some 0, some 0, some 0, true⟩ :
          EngineInstrumentation)).1 = false ∧
    (getCaptureShaderCompilationTime
        (⟨false, none, [], false, [], some 0, some 0, some 0, some 0, true⟩ :
          EngineInstrumentation)).1 = false :=
  capture_getters_always_false
    [SetterCall.gpu true, SetterCall.shader true, SetterCall.gpu false]
    Engine.empty
    (⟨false, none, [], false, [], some 0, some 0, some 0, some 0, true⟩,
      ⟨⟨[0], 1⟩, ⟨[0], 1⟩, ⟨[0], 1⟩, ⟨[0], 1⟩, 0⟩)
    (by rfl)
